import Mathlib

/-
Verification of the gral-tools PDF utilities: a shallow embedding of
src/scripts/_2pagesPerSheet.py (2-up imposition) and src/scripts/_merge.py
(PDF merging), with theorems about page counts, geometry, page-range
clamping and error behaviour.

Numbers (page dimensions, margins, scales) are modelled as rationals;
Python integers as Int (Python `%` on a positive modulus agrees with
Int.emod).  Fallible operations return `Except String` mirroring the
raised exceptions; the catch-all boundary that turns any exception into a
boolean `False` result is modelled by `merge_pdfs_run`.  The PDF library
collaborator is abstracted: a page is its media-box dimensions plus the
raw `/Rotate` attribute, a transformation is the list of rotate / scale /
translate steps the code composes, and the filesystem is a map
from paths to optional documents.  Bookmark propagation is best-effort in the
source, touches no pages, and is not modelled.
-/

namespace GralTools

/-- Embedding of Python str.upper for ASCII strings (used on page-format
names such as A4). -/
def strUpper (s : String) : String := ⟨s.data.map Char.toUpper⟩

/-- Embedding of Python str.lower for ASCII strings. -/
def strLower (s : String) : String := ⟨s.data.map Char.toLower⟩

/-- Embedding of Python f.lower().endswith for the pdf-extension test in
convert_merge_pdfs. -/
def endsWithPdf (f : String) : Bool :=
  List.isSuffixOf (strLower (".pdf")).data (strLower f).data

/-- The raw /Rotate attribute of a source page as seen by
`int(src.get("/Rotate", 0))`: absent (get returns the default 0), an
integer-convertible value, or a value on which int() raises. -/
inductive RotAttr
  | absent
  | val (n : Int)
  | malformed
deriving DecidableEq, Inhabited

/-- A source page: media-box width/height in points plus the raw rotation
attribute.  Content is abstract and does not matter for the claims. -/
structure Page where
  width : ℚ
  height : ℚ
  rotate : RotAttr
deriving DecidableEq, Inhabited

/-- Embedding of the rotation read in create_2_pages_per_sheet:
`int(src.get("/Rotate", 0)) % 360` wrapped in try/except with fallback 0.
Python `%` on the positive modulus 360 is Int.emod. -/
def readRotation : RotAttr → Int
  | .absent => (0 : Int) % 360
  | .val n => n % 360
  | .malformed => 0

/-- One primitive step of a pypdf Transformation as composed by the code:
rotate(deg), translate(x, y) or scale(sx, sy). -/
inductive TOp
  | rot (deg : ℚ)
  | transl (x y : ℚ)
  | scal (sx sy : ℚ)
deriving DecidableEq

/-- The outcome of placing one source page onto one half-sheet: the side
(0 = left, 1 = right), the normalized rotation, the viewed (effective)
dimensions, the applied scale, the positioning offset (tx, ty), and the
full list of transformation steps in application order. -/
structure Placed where
  side : Nat
  rotation : Int
  viewedW : ℚ
  viewedH : ℚ
  scale : ℚ
  tx : ℚ
  ty : ℚ
  ops : List TOp
deriving DecidableEq

/-- Message of the ValueError raised for a rotation that is not a
multiple of 90 degrees. -/
def rotationErrMsg : String := "Rotation must be a multiple of 90 degrees."

/-- Message of the ValueError raised when the margins leave no available
area. -/
def marginErrMsg : String := "Margins too large for chosen page size."

/-- Message of the ValueError raised for an unknown page_size string. -/
def unknownPageSizeMsg : String := "Unknown page_size string. Use A4 or provide (w,h) in points."

/-- Embedding of the per-page body of the pair loop in
create_2_pages_per_sheet: reads dimensions and rotation, computes viewed
dimensions, fit scale (clamped to 1 unless scale_up), centered placement
on the given half, and the composed transformation (flattening transform
first when rotation is nonzero).  Raises for a rotation that is not a
multiple of 90. -/
def processPage (availableWidth availableHeight outputWidth outputHeight : ℚ)
    (scaleUp : Bool) (side : Nat) (src : Page) : Except String Placed :=
  let origW := src.width
  let origH := src.height
  let rotation := readRotation src.rotate
  let viewedW := if rotation = 90 ∨ rotation = 270 then origH else origW
  let viewedH := if rotation = 90 ∨ rotation = 270 then origW else origH
  let scaleX := availableWidth / viewedW
  let scaleY := availableHeight / viewedH
  let scaleFit := min scaleX scaleY
  let scale := if scaleUp then scaleFit else min scaleFit 1
  let scaledW := viewedW * scale
  let scaledH := viewedH * scale
  let centerX := outputWidth * (if side = 0 then (1 : ℚ)/4 else 3/4)
  let centerY := outputHeight / 2
  let tx := centerX - scaledW / 2
  let ty := centerY - scaledH / 2
  let tail := [TOp.scal scale scale, TOp.transl tx ty]
  if rotation = 0 then
    .ok ⟨side, rotation, viewedW, viewedH, scale, tx, ty, tail⟩
  else if rotation = 90 then
    .ok ⟨side, rotation, viewedW, viewedH, scale, tx, ty,
      TOp.rot (-(rotation : ℚ)) :: TOp.transl 0 origW :: tail⟩
  else if rotation = 180 then
    .ok ⟨side, rotation, viewedW, viewedH, scale, tx, ty,
      TOp.rot (-(rotation : ℚ)) :: TOp.transl origW origH :: tail⟩
  else if rotation = 270 then
    .ok ⟨side, rotation, viewedW, viewedH, scale, tx, ty,
      TOp.rot (-(rotation : ℚ)) :: TOp.transl origH 0 :: tail⟩
  else
    .error rotationErrMsg

/-- Embedding of the pair loop `for i in range(0, total_pages, 2)`: each
iteration creates one output sheet holding the placements of source pages
i (left) and i+1 (right, skipped past the end of the document). -/
def imposePages (pp : Nat → Page → Except String Placed) :
    List Page → Except String (List (List Placed))
  | [] => .ok []
  | [a] =>
    match pp 0 a with
    | .error e => .error e
    | .ok x => .ok [[x]]
  | a :: b :: rest =>
    match pp 0 a with
    | .error e => .error e
    | .ok x =>
      match pp 1 b with
      | .error e => .error e
      | .ok y =>
        match imposePages pp rest with
        | .error e => .error e
        | .ok rs => .ok ([x, y] :: rs)

/-- The reportlab A4 size in points: (210mm, 297mm) at 72pt/inch,
exactly (75600/127, 106920/127). -/
def A4size : ℚ × ℚ := (75600/127, 106920/127)

/-- The reportlab letter size in points: (8.5in, 11in) = (612, 792). -/
def letterSize : ℚ × ℚ := (612, 792)

/-- The page_size argument of create_2_pages_per_sheet: a string preset
name or an explicit (width, height) pair in points. -/
inductive PageSizeArg
  | str (s : String)
  | dims (w h : ℚ)
deriving DecidableEq

/-- Embedding of the page-size resolution at the top of
create_2_pages_per_sheet: the string A4 (upper-cased comparison) gives
the A4 dimensions, any other string raises, an explicit pair is used
as given. -/
def resolvePageSize : PageSizeArg → Except String (ℚ × ℚ)
  | .str s => if strUpper s = "A4" then .ok A4size else .error unknownPageSizeMsg
  | .dims w h => .ok (w, h)

/-- Embedding of create_2_pages_per_sheet: resolves the page size, forces
landscape, computes the available half-sheet area (raising when the
margins leave none), and runs the pair loop.  The returned sheets stand
for the written output document; an error stands for the caught
exception (the Python wrapper then returns False). -/
def create_2_pages_per_sheet (doc : List Page) (pageSize : PageSizeArg)
    (marginPt : ℚ) (scaleUp : Bool) : Except String (List (List Placed)) :=
  match resolvePageSize pageSize with
  | .error e => .error e
  | .ok (pw, ph) =>
    let outputWidth := max pw ph
    let outputHeight := min pw ph
    let halfWidth := outputWidth / 2
    let availableWidth := halfWidth - 2 * marginPt
    let availableHeight := outputHeight - 2 * marginPt
    if availableWidth ≤ 0 ∨ availableHeight ≤ 0 then
      .error marginErrMsg
    else
      imposePages (processPage availableWidth availableHeight outputWidth outputHeight scaleUp) doc

/-- Embedding of the page-format resolution in
convert_pdf_2_pages_per_sheet: `A4 if page_format.upper() == "A4" else
letter` — every other format name, recognized or not, maps to letter. -/
def convertPageFormatSize (page_format : String) : ℚ × ℚ :=
  if strUpper page_format = "A4" then A4size else letterSize

/-- Embedding of convert_pdf_2_pages_per_sheet: resolves the page format
to a concrete dimension pair and delegates to create_2_pages_per_sheet
with the default margin 12pt and scale_up False.  The existence check on
the input path is upstream of the document argument and not modelled. -/
def convert_pdf_2_pages_per_sheet (doc : List Page) (page_format : String) :
    Except String (List (List Placed)) :=
  create_2_pages_per_sheet doc
    (.dims (convertPageFormatSize page_format).1 (convertPageFormatSize page_format).2) 12 false

/-- A source PDF document on disk: its ordered list of pages. -/
structure PdfFile where
  pages : List Page
deriving DecidableEq, Inhabited

/-- The exceptions raised inside merge_pdfs before any page is written:
ValueError for an empty input list, FileNotFoundError (naming the
missing path) for a nonexistent input. -/
inductive MergeError
  | noInput
  | notFound (path : String)
deriving DecidableEq

/-- Embedding of the page-range selection in merge_pdfs: with a range
(start, end), start is clamped by `max(0, min(start, num_pages - 1))`,
end by `max(start, min(end, num_pages))` (start already clamped), and
the selected indices are `range(start, end)`; with no range the full
document is selected. -/
def pagesToAdd (pageRange : Option (Int × Int)) (numPages : Nat) : List Nat :=
  match pageRange with
  | some (s, e) =>
    let startPage := max 0 (min s ((numPages : Int) - 1))
    let endPage := max startPage (min e (numPages : Int))
    List.range' startPage.toNat (endPage - startPage).toNat
  | none => List.range numPages

/-- Embedding of the existence loop in merge_pdfs: returns the first
input path that does not exist, if any. -/
def findMissing (fs : String → Option PdfFile) : List String → Option String
  | [] => none
  | p :: rest => if (fs p).isSome then findMissing fs rest else some p

/-- Embedding of merge_pdfs over a filesystem `fs` (a map from
paths to optional documents): raises for an empty path list, then for the first
missing input, then concatenates the selected page range of every source
in input order.  The returned page list stands for the written output
document.  Bookmark propagation is a non-fatal side channel in the
source and adds no pages, so it is not modelled. -/
def merge_pdfs (fs : String → Option PdfFile) (paths : List String)
    (pageRange : Option (Int × Int)) : Except MergeError (List Page) :=
  if paths.isEmpty then .error .noInput
  else
    match findMissing fs paths with
    | some p => .error (.notFound p)
    | none =>
      .ok ((paths.map (fun p =>
        let d := (fs p).getD ⟨[]⟩
        (pagesToAdd pageRange d.pages.length).map (fun i => d.pages.getD i default))).flatten)

/-- The observable outcome of one merge_pdfs call: the contents of the
output file if one was created, and the boolean return value produced by
the catch-all exception handler. -/
structure MergeOutcome where
  written : Option (List Page)
  success : Bool
deriving DecidableEq

/-- merge_pdfs with its catch-all boundary: an uncaught exception inside
the try block yields False with no output file (the empty-list and
missing-file exceptions are raised before the output is opened). -/
def merge_pdfs_run (fs : String → Option PdfFile) (paths : List String)
    (pageRange : Option (Int × Int)) : MergeOutcome :=
  match merge_pdfs fs paths pageRange with
  | .ok pgs => ⟨some pgs, true⟩
  | .error _ => ⟨none, false⟩

/-- A filesystem as seen by convert_merge_pdfs: documents by path, plus
directory listings (none when the path is not a directory). -/
structure FileSystem where
  files : String → Option PdfFile
  dirs : String → Option (List String)

/-- The input_paths argument of convert_merge_pdfs: a single string or a
list of paths. -/
inductive MergeInput
  | single (path : String)
  | multi (paths : List String)

/-- The exception escaping convert_merge_pdfs when a single string input
is not a directory (this function has no try/except of its own). -/
inductive ConvError
  | invalidArg (msg : String)
deriving DecidableEq

/-- Message of the ValueError raised by convert_merge_pdfs for a single
string input that is not a directory. -/
def singleStringErrMsg : String := "Single string input must be a directory path"

/-- Insertion step of lexicographic string sorting (Python sorted). -/
def insertSorted (x : String) : List String → List String
  | [] => [x]
  | y :: ys => if x ≤ y then x :: y :: ys else y :: insertSorted x ys

/-- Embedding of Python sorted on a list of file names. -/
def sortStrings : List String → List String
  | [] => []
  | x :: xs => insertSorted x (sortStrings xs)

/-- The tail of convert_merge_pdfs after input-path resolution: fewer
than 2 paths prints an error and returns False, otherwise the result is
the boolean outcome of merge_pdfs (full documents, bookkeeping defaults). -/
def convertMergeGo (fs : FileSystem) (paths : List String) : Except ConvError Bool :=
  if paths.length < 2 then .ok false
  else .ok (merge_pdfs_run fs.files paths none).success

/-- Embedding of convert_merge_pdfs: a single string input is resolved
through the filesystem — a directory yields its sorted pdf listing
joined onto the directory path, any other single string raises a
ValueError that escapes this function (there is no surrounding
try/except); a list input is used as given. -/
def convert_merge_pdfs (fs : FileSystem) (input : MergeInput) : Except ConvError Bool :=
  match input with
  | .single s =>
    match fs.dirs s with
    | some listing =>
      convertMergeGo fs
        ((sortStrings (listing.filter fun f => endsWithPdf f)).map (fun f => s ++ "/" ++ f))
    | none => .error (.invalidArg singleStringErrMsg)
  | .multi l => convertMergeGo fs l

/-- The per-document selection formula in the words of the page-range
claim, for comparison with the code: start clamped to the interval
[0, pageCount-1] and end clamped to [max(start, 0), pageCount], where
clamping x to [lo, hi] is min (max x lo) hi. -/
def claimSelect (s e : Int) (n : Nat) : List Nat :=
  let startC := min (max s 0) ((n : Int) - 1)
  let endC := min (max e (max s 0)) (n : Int)
  List.range' startC.toNat (endC - startC).toNat

/-- A filesystem with no files and no directories, for concrete runs. -/
def emptyFS : FileSystem := ⟨fun _ => none, fun _ => none⟩

/-- A 1pt-by-1pt source page with no rotation attribute, for concrete
runs. -/
def unitPage : Page := ⟨1, 1, .absent⟩

/-- The placement of unitPage on the left half of a 4x2 sheet with no
margin and no upscaling. -/
def pLeftUnit : Placed := ⟨0, 0, 1, 1, 1, 1/2, 1/2, [TOp.scal 1 1, TOp.transl (1/2) (1/2)]⟩

/-- The placement of unitPage on the right half of a 4x2 sheet with no
margin and no upscaling. -/
def pRightUnit : Placed := ⟨1, 0, 1, 1, 1, 5/2, 1/2, [TOp.scal 1 1, TOp.transl (5/2) (1/2)]⟩

/-- A three-page source document, for concrete runs. -/
def fileA : PdfFile := ⟨[⟨1, 1, .absent⟩, ⟨2, 1, .absent⟩, ⟨3, 1, .absent⟩]⟩

/-- A two-page source document, for concrete runs. -/
def fileB : PdfFile := ⟨[⟨11, 1, .absent⟩, ⟨12, 1, .absent⟩]⟩

/-- A filesystem holding fileA at A.pdf and fileB at B.pdf, for concrete
runs. -/
def fsAB : String → Option PdfFile := fun p =>
  if p = "A.pdf" then some fileA else if p = "B.pdf" then some fileB else none

/-- Helper: a successful pair loop produces one sheet per two source
pages, rounded up. -/
theorem imposePages_ok_length (pp : Nat → Page → Except String Placed) :
    ∀ (l : List Page) (sheets : List (List Placed)),
      imposePages pp l = Except.ok sheets → sheets.length = (l.length + 1) / 2
  | [], sheets, h => by
    simp only [imposePages, Except.ok.injEq] at h
    subst h
    rfl
  | [a], sheets, h => by
    simp only [imposePages] at h
    cases hpa : pp 0 a with
    | error e => rw [hpa] at h; cases h
    | ok x =>
      rw [hpa] at h
      simp only [Except.ok.injEq] at h
      subst h
      simp
  | a :: b :: rest, sheets, h => by
    simp only [imposePages] at h
    cases hpa : pp 0 a with
    | error e => rw [hpa] at h; cases h
    | ok x =>
      rw [hpa] at h
      cases hpb : pp 1 b with
      | error e => rw [hpb] at h; cases h
      | ok y =>
        rw [hpb] at h
        cases hrest : imposePages pp rest with
        | error e => rw [hrest] at h; cases h
        | ok rs =>
          rw [hrest] at h
          simp only [Except.ok.injEq] at h
          subst h
          have ih := imposePages_ok_length pp rest rs hrest
          simp only [List.length_cons]
          omega

/-- Helper: when the source page count is odd, the last sheet of a
successful pair loop holds exactly one placement, obtained from the
left-side call. -/
theorem imposePages_ok_last_odd (pp : Nat → Page → Except String Placed) :
    ∀ (l : List Page) (sheets : List (List Placed)),
      imposePages pp l = Except.ok sheets → l.length % 2 = 1 →
        ∃ a x, pp 0 a = Except.ok x ∧ sheets.getLast? = some [x]
  | [], _, _, hodd => by simp at hodd
  | [a], sheets, h, _ => by
    simp only [imposePages] at h
    cases hpa : pp 0 a with
    | error e => rw [hpa] at h; cases h
    | ok x =>
      rw [hpa] at h
      simp only [Except.ok.injEq] at h
      subst h
      exact ⟨a, x, hpa, rfl⟩
  | a :: b :: rest, sheets, h, hodd => by
    simp only [imposePages] at h
    cases hpa : pp 0 a with
    | error e => rw [hpa] at h; cases h
    | ok x =>
      rw [hpa] at h
      cases hpb : pp 1 b with
      | error e => rw [hpb] at h; cases h
      | ok y =>
        rw [hpb] at h
        cases hrest : imposePages pp rest with
        | error e => rw [hrest] at h; cases h
        | ok rs =>
          rw [hrest] at h
          simp only [Except.ok.injEq] at h
          subst h
          have hodd2 : rest.length % 2 = 1 := by
            simp only [List.length_cons] at hodd
            omega
          obtain ⟨c, x2, hc, hlast⟩ := imposePages_ok_last_odd pp rest rs hrest hodd2
          refine ⟨c, x2, hc, ?_⟩
          cases rs with
          | nil => simp at hlast
          | cons r0 rs2 => rw [List.getLast?_cons_cons]; exact hlast

/-- Helper: a successful placement records the side it was asked for. -/
theorem processPage_ok_side (aw ah ow oh : ℚ) (su : Bool) (side : Nat) (src : Page)
    (x : Placed) (h : processPage aw ah ow oh su side src = Except.ok x) :
    x.side = side := by
  simp only [processPage] at h
  split_ifs at h <;> simp only [Except.ok.injEq] at h <;> subst h <;> rfl

/-- C1: for every source document with N ≥ 1 pages, a successful run of
create_2_pages_per_sheet produces exactly ceil(N/2) output sheets, and
when N is odd the final sheet carries only the left-half placement (its
right half receives no source content); oddness itself never causes an
error. -/
theorem create_2pps_page_count (doc : List Page) (ps : PageSizeArg) (m : ℚ)
    (su : Bool) (sheets : List (List Placed)) (h1 : 1 ≤ doc.length)
    (h : create_2_pages_per_sheet doc ps m su = Except.ok sheets) :
    sheets.length = (doc.length + 1) / 2 ∧
      (doc.length % 2 = 1 → ∃ x, sheets.getLast? = some [x] ∧ x.side = 0) := by
  unfold create_2_pages_per_sheet at h
  cases hr : resolvePageSize ps with
  | error e => rw [hr] at h; cases h
  | ok wh =>
    rw [hr] at h
    obtain ⟨pw, ph⟩ := wh
    simp only at h
    split at h
    · cases h
    · constructor
      · exact imposePages_ok_length _ doc sheets h
      · intro hodd
        obtain ⟨a, x, hax, hlast⟩ := imposePages_ok_last_odd _ doc sheets h hodd
        exact ⟨x, hlast, processPage_ok_side _ _ _ _ _ _ _ _ hax⟩

/-- C9: on a zero-page source document, create_2_pages_per_sheet is
deterministic and lands in one of exactly two outcomes: it fails fast
(bad page-size string or margins too large) or succeeds with a zero-page
output document. -/
theorem create_2pps_empty_doc (ps : PageSizeArg) (m : ℚ) (su : Bool) :
    (∃ e, create_2_pages_per_sheet [] ps m su = Except.error e) ∨
      create_2_pages_per_sheet [] ps m su = Except.ok [] := by
  unfold create_2_pages_per_sheet
  cases hr : resolvePageSize ps with
  | error e => exact Or.inl ⟨e, rfl⟩
  | ok wh =>
    obtain ⟨pw, ph⟩ := wh
    simp only
    split_ifs with hm
    · exact Or.inl ⟨marginErrMsg, rfl⟩
    · exact Or.inr rfl

/-- C3: every successful placement applies the scale
min(availableWidth/viewedWidth, availableHeight/viewedHeight), further
clamped to at most 1 when scaleUp is false; in particular with scaleUp
false the scale never exceeds 1. -/
theorem processPage_scale_fit (aw ah ow oh : ℚ) (su : Bool) (side : Nat) (src : Page)
    (x : Placed) (h : processPage aw ah ow oh su side src = Except.ok x) :
    x.scale = (if su then min (aw / x.viewedW) (ah / x.viewedH)
      else min (min (aw / x.viewedW) (ah / x.viewedH)) 1) ∧
      (su = false → x.scale ≤ 1) := by
  simp only [processPage] at h
  split_ifs at h <;> simp only [Except.ok.injEq] at h <;> subst h <;>
    simp_all <;> exact min_le_right _ _

/-- C4 counterexample: a readable integer rotation of 45 degrees is
normalized to 45, which is none of 0, 90, 180 or 270, and the engine
then rejects the page with a ValueError instead of defaulting the
rotation to 0 and processing it. -/
theorem readRotation_counterexample :
    readRotation (.val 45) = 45 ∧
      ¬(readRotation (.val 45) = 0 ∨ readRotation (.val 45) = 90 ∨
        readRotation (.val 45) = 180 ∨ readRotation (.val 45) = 270) ∧
      processPage 2 2 4 2 false 0 ⟨1, 1, .val 45⟩ = Except.error rotationErrMsg := by
  refine ⟨by decide, by decide, ?_⟩
  norm_num [processPage, readRotation]

/-- C4 (amended): the rotation read from a page is reduced modulo 360
into [0, 360); whenever the raw value is an integer multiple of 90 the
result is one of 0, 90, 180, 270; an absent attribute or a value on
which integer conversion raises defaults to 0, and such a page is then
placed without error (with rotation 0); a readable rotation that is not
a multiple of 90 instead makes the engine raise. -/
theorem readRotation_normalized (a : RotAttr) (n : Int) (hn : n % 90 = 0) :
    (0 ≤ readRotation a ∧ readRotation a < 360) ∧
      readRotation .malformed = 0 ∧ readRotation .absent = 0 ∧
      (readRotation (.val n) = 0 ∨ readRotation (.val n) = 90 ∨
        readRotation (.val n) = 180 ∨ readRotation (.val n) = 270) ∧
      (∀ aw ah ow oh su side w h, ∃ x,
        processPage aw ah ow oh su side ⟨w, h, .malformed⟩ = Except.ok x ∧
          x.rotation = 0) := by
  refine ⟨?_, rfl, by decide, ?_, ?_⟩
  · cases a <;> simp only [readRotation] <;> omega
  · simp only [readRotation]
    omega
  · intro aw ah ow oh su side w h
    exact ⟨_, rfl, rfl⟩

/-- C5: for every successfully placed page, when the declared rotation r
is nonzero the transformation starts with the content-flattening steps
rotate(-r) then translate, with offset (0, originalWidth) for r = 90,
(originalWidth, originalHeight) for r = 180 and (originalHeight, 0) for
r = 270, followed by the scale and positioning translate; when r = 0 no
flattening step is applied. -/
theorem processPage_flatten (aw ah ow oh : ℚ) (su : Bool) (side : Nat) (src : Page)
    (x : Placed) (h : processPage aw ah ow oh su side src = Except.ok x) :
    (x.rotation = 0 →
      x.ops = [TOp.scal x.scale x.scale, TOp.transl x.tx x.ty]) ∧
    (x.rotation = 90 →
      x.ops = [TOp.rot (-90), TOp.transl 0 src.width,
        TOp.scal x.scale x.scale, TOp.transl x.tx x.ty]) ∧
    (x.rotation = 180 →
      x.ops = [TOp.rot (-180), TOp.transl src.width src.height,
        TOp.scal x.scale x.scale, TOp.transl x.tx x.ty]) ∧
    (x.rotation = 270 →
      x.ops = [TOp.rot (-270), TOp.transl src.height 0,
        TOp.scal x.scale x.scale, TOp.transl x.tx x.ty]) := by
  simp only [processPage] at h
  split_ifs at h <;> simp only [Except.ok.injEq] at h <;> subst h <;>
    refine ⟨?_, ?_, ?_, ?_⟩ <;> intro hr <;> simp_all <;> norm_num

/-- Helper: the only exception the per-page placement can raise is the
rotation ValueError. -/
theorem processPage_error_msg (aw ah ow oh : ℚ) (su : Bool) (side : Nat) (src : Page)
    (e : String) (h : processPage aw ah ow oh su side src = Except.error e) :
    e = rotationErrMsg := by
  simp only [processPage] at h
  split_ifs at h <;> simp only [Except.error.injEq] at h <;> first
    | exact h.symm
    | cases h

/-- Helper: the existence scan finds nothing when every input path
exists. -/
theorem findMissing_eq_none (fs : String → Option PdfFile) :
    ∀ (l : List String), (∀ p ∈ l, (fs p).isSome) → findMissing fs l = none
  | [], _ => rfl
  | p :: rest, h => by
    simp only [findMissing]
    rw [if_pos (h p (List.mem_cons_self p rest))]
    exact findMissing_eq_none fs rest (fun q hq => h q (List.mem_cons_of_mem p hq))

/-- Helper: when some input path is missing, the existence scan reports
a missing path from the list. -/
theorem findMissing_eq_some (fs : String → Option PdfFile) :
    ∀ (l : List String) (p : String), p ∈ l → fs p = none →
      ∃ q, findMissing fs l = some q ∧ q ∈ l ∧ fs q = none
  | [], p, hp, _ => by cases hp
  | a :: rest, p, hp, hnone => by
    by_cases ha : (fs a).isSome
    · have hpa : p ≠ a := by
        intro hEq
        rw [← hEq, hnone] at ha
        simp at ha
      have hprest : p ∈ rest := by
        cases List.mem_cons.mp hp with
        | inl hEq => exact absurd hEq hpa
        | inr h2 => exact h2
      obtain ⟨q, hq1, hq2, hq3⟩ := findMissing_eq_some fs rest p hprest hnone
      refine ⟨q, ?_, List.mem_cons_of_mem a hq2, hq3⟩
      simp only [findMissing]
      rw [if_pos ha]
      exact hq1
    · refine ⟨a, ?_, List.mem_cons_self a rest, ?_⟩
      · simp only [findMissing]
        rw [if_neg ha]
      · exact Option.not_isSome_iff_eq_none.mp ha

/-- Helper: indexing a list over the full index range reproduces the
list. -/
theorem getD_range_map : ∀ (l : List Page),
    (List.range l.length).map (fun i => l.getD i default) = l
  | [] => rfl
  | a :: t => by
    simp only [List.length_cons, List.range_succ_eq_map, List.map_cons,
      List.getD_cons_zero, List.map_map, List.cons.injEq, true_and]
    have hcomp : ((fun i => (a :: t).getD i default) ∘ Nat.succ) =
        (fun i => t.getD i default) := by
      funext i
      simp [List.getD_cons_succ]
    rw [hcomp]
    exact getD_range_map t

/-- C2: merging any non-empty list of existing documents with no page
range concatenates all their pages in input order — the output is
exactly the flattening of the page lists of the sources, and its length
is the sum of their page counts. -/
theorem merge_pdfs_append_order (fs : String → Option PdfFile) (paths : List String)
    (h1 : paths ≠ []) (h2 : ∀ p ∈ paths, (fs p).isSome) :
    merge_pdfs fs paths none =
        Except.ok ((paths.map (fun p => ((fs p).getD ⟨[]⟩).pages)).flatten) ∧
      ((paths.map (fun p => ((fs p).getD ⟨[]⟩).pages)).flatten).length =
        (paths.map (fun p => ((fs p).getD ⟨[]⟩).pages.length)).sum := by
  constructor
  · unfold merge_pdfs
    rw [if_neg (by simpa using h1)]
    rw [findMissing_eq_none fs paths h2]
    simp only [Except.ok.injEq]
    congr 1
    refine List.map_congr_left ?_
    intro p _
    simp only [pagesToAdd]
    exact getD_range_map _
  · rw [List.length_flatten, List.map_map]
    rfl

/-- C6 counterexample: with pageRange (5, 1) on a 3-page document the
code selects no pages (start clamps to 2, then end = max(2, min(1,3)) =
2), while the claim formula — end clamped to [max(start,0), pageCount] =
[5, 3] — selects page 2; so the claim formula, read literally, differs
from the code. -/
theorem pagesToAdd_counterexample :
    pagesToAdd (some (5, 1)) 3 = [] ∧ claimSelect 5 1 3 = [2] ∧
      pagesToAdd (some (5, 1)) 3 ≠ claimSelect 5 1 3 := by
  refine ⟨?_, ?_, ?_⟩ <;> decide

/-- C6 (amended): for a document with pageCount ≥ 1 and pageRange
(start, end), the selected indices are exactly the half-open interval
from start clamped to [0, pageCount-1] up to end clamped to
[clampedStart, pageCount] (the lower bound of the end clamp is the
already-clamped start); with no pageRange the whole document is
selected. -/
theorem pagesToAdd_clamp (s e : Int) (n : Nat) (hn : 1 ≤ n) :
    (∀ i : Nat, i ∈ pagesToAdd (some (s, e)) n ↔
      (min (max s 0) ((n : Int) - 1) ≤ (i : Int) ∧
        (i : Int) < min (max e (min (max s 0) ((n : Int) - 1))) (n : Int))) ∧
      pagesToAdd none n = List.range n := by
  refine ⟨?_, rfl⟩
  intro i
  simp only [pagesToAdd, List.mem_range'_1]
  omega

/-- C7: merge_pdfs fails before writing anything when the input list is
empty or contains a missing path — the result names a missing file and
the outcome records no output file and a False return. -/
theorem merge_pdfs_fails_fast (fs : String → Option PdfFile) (paths : List String)
    (pr : Option (Int × Int)) :
    (paths = [] →
      merge_pdfs fs paths pr = Except.error MergeError.noInput ∧
        merge_pdfs_run fs paths pr = ⟨none, false⟩) ∧
    (∀ p, p ∈ paths → fs p = none →
      (∃ q, q ∈ paths ∧ fs q = none ∧
        merge_pdfs fs paths pr = Except.error (MergeError.notFound q)) ∧
        merge_pdfs_run fs paths pr = ⟨none, false⟩) := by
  constructor
  · intro hEq
    subst hEq
    exact ⟨rfl, rfl⟩
  · intro p hp hnone
    obtain ⟨q, hq1, hq2, hq3⟩ := findMissing_eq_some fs paths p hp hnone
    have hne : ¬paths.isEmpty := by
      cases paths with
      | nil => cases hp
      | cons a t => simp
    have hmerge : merge_pdfs fs paths pr = Except.error (MergeError.notFound q) := by
      unfold merge_pdfs
      rw [if_neg hne, hq1]
    refine ⟨⟨q, hq2, hq3, hmerge⟩, ?_⟩
    unfold merge_pdfs_run
    rw [hmerge]

/-- C8 counterexample: called with the single non-directory string
a.pdf, convert_merge_pdfs raises the invalid-argument ValueError — the
call does not return the boolean failure result False (nor any boolean),
because this function has no catch-all of its own. -/
theorem convert_merge_pdfs_counterexample :
    convert_merge_pdfs emptyFS (.single ("a.pdf")) =
        Except.error (.invalidArg singleStringErrMsg) ∧
      convert_merge_pdfs emptyFS (.single ("a.pdf")) ≠ Except.ok false := by
  exact ⟨rfl, by simp [convert_merge_pdfs, emptyFS]⟩

/-- C8 (amended): for every single string input that the filesystem does
not list as a directory, convert_merge_pdfs fails with the
invalid-argument ValueError, which escapes the function as an exception;
it is not converted to a boolean result at this layer (the catch-all
boundary lives inside merge_pdfs). -/
theorem convert_merge_pdfs_single_nondir (fs : FileSystem) (s : String)
    (h : fs.dirs s = none) :
    convert_merge_pdfs fs (.single s) =
        Except.error (.invalidArg singleStringErrMsg) ∧
      ∀ b : Bool, convert_merge_pdfs fs (.single s) ≠ Except.ok b := by
  have hres : convert_merge_pdfs fs (.single s) =
      Except.error (.invalidArg singleStringErrMsg) := by
    simp only [convert_merge_pdfs]
    rw [h]
  refine ⟨hres, ?_⟩
  intro b hb
  rw [hres] at hb
  cases hb

/-- Helper: an error from the pair loop comes from one of the per-page
placement calls. -/
theorem imposePages_error (pp : Nat → Page → Except String Placed) :
    ∀ (l : List Page) (e : String), imposePages pp l = Except.error e →
      ∃ side a, pp side a = Except.error e
  | [], e, h => by cases h
  | [a], e, h => by
    simp only [imposePages] at h
    cases hpa : pp 0 a with
    | error e2 =>
      rw [hpa] at h
      simp only [Except.error.injEq] at h
      exact ⟨0, a, by rw [hpa, h]⟩
    | ok x => rw [hpa] at h; cases h
  | a :: b :: rest, e, h => by
    simp only [imposePages] at h
    cases hpa : pp 0 a with
    | error e2 =>
      rw [hpa] at h
      simp only [Except.error.injEq] at h
      exact ⟨0, a, by rw [hpa, h]⟩
    | ok x =>
      rw [hpa] at h
      cases hpb : pp 1 b with
      | error e2 =>
        rw [hpb] at h
        simp only [Except.error.injEq] at h
        exact ⟨1, b, by rw [hpb, h]⟩
      | ok y =>
        rw [hpb] at h
        cases hrest : imposePages pp rest with
        | error e2 =>
          rw [hrest] at h
          simp only [Except.error.injEq] at h
          subst h
          exact imposePages_error pp rest e2 hrest
        | ok rs => rw [hrest] at h; cases h

/-- Helper: with an explicit dimension pair, create_2_pages_per_sheet
can only raise the margins error or the rotation error, never the
unknown-page-size error. -/
theorem create_dims_error_msgs (doc : List Page) (w h m : ℚ) (su : Bool)
    (e : String) (he : create_2_pages_per_sheet doc (.dims w h) m su = Except.error e) :
    e = marginErrMsg ∨ e = rotationErrMsg := by
  unfold create_2_pages_per_sheet at he
  simp only [resolvePageSize] at he
  split at he
  · simp only [Except.error.injEq] at he
    exact Or.inl he.symm
  · obtain ⟨side, a, ha⟩ := imposePages_error _ doc e he
    exact Or.inr (processPage_error_msg _ _ _ _ _ _ _ _ ha)

/-- C10: in convert_pdf_2_pages_per_sheet, every page_format string
whose upper-cased form is not A4 — recognized or not — is silently
mapped to the Letter sheet size, and the call behaves exactly like an
explicit Letter-dimension call; no invalid-argument error for an unknown
format name can arise at this layer. -/
theorem convert_2pps_unknown_format (fmt : String) (doc : List Page)
    (h : strUpper fmt ≠ "A4") :
    convertPageFormatSize fmt = letterSize ∧
      convert_pdf_2_pages_per_sheet doc fmt =
        create_2_pages_per_sheet doc (.dims letterSize.1 letterSize.2) 12 false ∧
      convert_pdf_2_pages_per_sheet doc fmt ≠ Except.error unknownPageSizeMsg := by
  have hsz : convertPageFormatSize fmt = letterSize := by
    unfold convertPageFormatSize
    rw [if_neg h]
  have heq : convert_pdf_2_pages_per_sheet doc fmt =
      create_2_pages_per_sheet doc (.dims letterSize.1 letterSize.2) 12 false := by
    unfold convert_pdf_2_pages_per_sheet
    rw [hsz]
  refine ⟨hsz, heq, ?_⟩
  intro hbad
  rw [heq] at hbad
  cases create_dims_error_msgs _ _ _ _ _ _ hbad with
  | inl h2 => exact absurd h2 (by decide)
  | inr h2 => exact absurd h2 (by decide)

/-- C1 witness: a three-page document on a 4x2 sheet with no margin
yields two sheets, the last holding only a left-half placement. -/
theorem create_2pps_page_count_witness :
    create_2_pages_per_sheet [unitPage, unitPage, unitPage] (.dims 4 2) 0 false =
        Except.ok [[pLeftUnit, pRightUnit], [pLeftUnit]] ∧
      ([[pLeftUnit, pRightUnit], [pLeftUnit]].length =
          ([unitPage, unitPage, unitPage].length + 1) / 2 ∧
        ([unitPage, unitPage, unitPage].length % 2 = 1 →
          ∃ x, [[pLeftUnit, pRightUnit], [pLeftUnit]].getLast? = some [x] ∧ x.side = 0)) :=
  have h : create_2_pages_per_sheet [unitPage, unitPage, unitPage] (.dims 4 2) 0 false =
      Except.ok [[pLeftUnit, pRightUnit], [pLeftUnit]] := by
    norm_num [create_2_pages_per_sheet, resolvePageSize, imposePages, processPage,
      readRotation, unitPage, pLeftUnit, pRightUnit, min_def, max_def]
  ⟨h, create_2pps_page_count _ _ _ _ _ (by norm_num) h⟩

/-- C2 witness: merging A.pdf (3 pages) and B.pdf (2 pages) with no page
range yields exactly the 5 pages A0, A1, A2, B0, B1 in order. -/
theorem merge_pdfs_append_order_witness :
    merge_pdfs fsAB [("A.pdf" : String), "B.pdf"] none =
        Except.ok [⟨1, 1, .absent⟩, ⟨2, 1, .absent⟩, ⟨3, 1, .absent⟩,
          ⟨11, 1, .absent⟩, ⟨12, 1, .absent⟩] ∧
      (merge_pdfs fsAB [("A.pdf" : String), "B.pdf"] none =
          Except.ok (([("A.pdf" : String), "B.pdf"].map
            (fun p => ((fsAB p).getD ⟨[]⟩).pages)).flatten) ∧
        (([("A.pdf" : String), "B.pdf"].map
            (fun p => ((fsAB p).getD ⟨[]⟩).pages)).flatten).length =
          ([("A.pdf" : String), "B.pdf"].map
            (fun p => ((fsAB p).getD ⟨[]⟩).pages.length)).sum) :=
  ⟨by rfl, merge_pdfs_append_order fsAB [("A.pdf" : String), "B.pdf"]
    (by decide) (by decide)⟩

/-- C3 witness: a 1x1 page in a 2x2 available area with scaleUp false
gets scale min(2/1, 2/1) clamped to 1. -/
theorem processPage_scale_fit_witness :
    processPage 2 2 4 2 false 0 unitPage = Except.ok pLeftUnit ∧
      (pLeftUnit.scale = (if false then min (2 / pLeftUnit.viewedW) (2 / pLeftUnit.viewedH)
          else min (min (2 / pLeftUnit.viewedW) (2 / pLeftUnit.viewedH)) 1) ∧
        (false = false → pLeftUnit.scale ≤ 1)) :=
  have h : processPage 2 2 4 2 false 0 unitPage = Except.ok pLeftUnit := by
    norm_num [processPage, readRotation, unitPage, pLeftUnit, min_def]
  ⟨h, processPage_scale_fit 2 2 4 2 false 0 unitPage pLeftUnit h⟩

/-- C4 witness: the raw rotation 450 is a multiple of 90 and normalizes
to 90; malformed and absent attributes default to 0. -/
theorem readRotation_normalized_witness :
    (450 : Int) % 90 = 0 ∧
      ((0 ≤ readRotation (.val 450) ∧ readRotation (.val 450) < 360) ∧
        readRotation .malformed = 0 ∧ readRotation .absent = 0 ∧
        (readRotation (.val 450) = 0 ∨ readRotation (.val 450) = 90 ∨
          readRotation (.val 450) = 180 ∨ readRotation (.val 450) = 270) ∧
        (∀ aw ah ow oh su side w h, ∃ x,
          processPage aw ah ow oh su side ⟨w, h, .malformed⟩ = Except.ok x ∧
            x.rotation = 0)) :=
  ⟨by decide, readRotation_normalized (.val 450) 450 (by decide)⟩

/-- C5 witness: a 1x2 page declared rotated by 90 degrees is flattened
with rotate(-90) then translate(0, 1) before the scale and positioning
steps. -/
theorem processPage_flatten_witness :
    processPage 2 2 4 2 false 0 ⟨1, 2, .val 90⟩ =
        Except.ok ⟨0, 90, 2, 1, 1, 0, 1/2,
          [TOp.rot (-90), TOp.transl 0 1, TOp.scal 1 1, TOp.transl 0 (1/2)]⟩ ∧
      ((Placed.rotation ⟨0, 90, 2, 1, 1, 0, 1/2,
          [TOp.rot (-90), TOp.transl 0 1, TOp.scal 1 1, TOp.transl 0 (1/2)]⟩ = 0 →
        Placed.ops ⟨0, 90, 2, 1, 1, 0, 1/2,
          [TOp.rot (-90), TOp.transl 0 1, TOp.scal 1 1, TOp.transl 0 (1/2)]⟩ =
          [TOp.scal 1 1, TOp.transl 0 (1/2)]) ∧
      (Placed.rotation ⟨0, 90, 2, 1, 1, 0, 1/2,
          [TOp.rot (-90), TOp.transl 0 1, TOp.scal 1 1, TOp.transl 0 (1/2)]⟩ = 90 →
        Placed.ops ⟨0, 90, 2, 1, 1, 0, 1/2,
          [TOp.rot (-90), TOp.transl 0 1, TOp.scal 1 1, TOp.transl 0 (1/2)]⟩ =
          [TOp.rot (-90), TOp.transl 0 (Page.width ⟨1, 2, .val 90⟩),
            TOp.scal 1 1, TOp.transl 0 (1/2)]) ∧
      (Placed.rotation ⟨0, 90, 2, 1, 1, 0, 1/2,
          [TOp.rot (-90), TOp.transl 0 1, TOp.scal 1 1, TOp.transl 0 (1/2)]⟩ = 180 →
        Placed.ops ⟨0, 90, 2, 1, 1, 0, 1/2,
          [TOp.rot (-90), TOp.transl 0 1, TOp.scal 1 1, TOp.transl 0 (1/2)]⟩ =
          [TOp.rot (-180), TOp.transl (Page.width ⟨1, 2, .val 90⟩) (Page.height ⟨1, 2, .val 90⟩),
            TOp.scal 1 1, TOp.transl 0 (1/2)]) ∧
      (Placed.rotation ⟨0, 90, 2, 1, 1, 0, 1/2,
          [TOp.rot (-90), TOp.transl 0 1, TOp.scal 1 1, TOp.transl 0 (1/2)]⟩ = 270 →
        Placed.ops ⟨0, 90, 2, 1, 1, 0, 1/2,
          [TOp.rot (-90), TOp.transl 0 1, TOp.scal 1 1, TOp.transl 0 (1/2)]⟩ =
          [TOp.rot (-270), TOp.transl (Page.height ⟨1, 2, .val 90⟩) 0,
            TOp.scal 1 1, TOp.transl 0 (1/2)])) :=
  have h : processPage 2 2 4 2 false 0 ⟨1, 2, .val 90⟩ =
      Except.ok ⟨0, 90, 2, 1, 1, 0, 1/2,
        [TOp.rot (-90), TOp.transl 0 1, TOp.scal 1 1, TOp.transl 0 (1/2)]⟩ := by
    norm_num [processPage, readRotation, min_def]
  have h5 := processPage_flatten 2 2 4 2 false 0 ⟨1, 2, .val 90⟩ _ h
  ⟨h, by
    refine ⟨fun hr => ?_, fun _ => ?_, fun hr => ?_, fun hr => ?_⟩
    · cases hr
    · have h2 := h5.2.1 rfl
      simpa using h2
    · cases hr
    · cases hr⟩

/-- C6 witness: pageRange (1, 10) on a 3-page document clamps to the
half-open interval from 1 to 3, selecting exactly pages 1 and 2. -/
theorem pagesToAdd_clamp_witness :
    (1 ≤ 3 ∧
      ((∀ i : Nat, i ∈ pagesToAdd (some (1, 10)) 3 ↔
        (min (max 1 0) (((3 : Nat) : Int) - 1) ≤ (i : Int) ∧
          (i : Int) < min (max 10 (min (max 1 0) (((3 : Nat) : Int) - 1))) ((3 : Nat) : Int))) ∧
        pagesToAdd none 3 = List.range 3)) ∧
      pagesToAdd (some (1, 10)) 3 = [1, 2] :=
  ⟨⟨by decide, pagesToAdd_clamp 1 10 3 (by decide)⟩, by decide⟩

/-- C7 witness: the empty input list gives the no-input error with no
output written; the single missing path missing.pdf gives a not-found
error naming it, again with no output written. -/
theorem merge_pdfs_fails_fast_witness :
    (merge_pdfs (fun _ => none) ([] : List String) none = Except.error MergeError.noInput ∧
      merge_pdfs_run (fun _ => none) ([] : List String) none = ⟨none, false⟩) ∧
    ((∃ q, q ∈ [("missing.pdf" : String)] ∧ (fun _ => (none : Option PdfFile)) q = none ∧
      merge_pdfs (fun _ => none) [("missing.pdf" : String)] none =
        Except.error (MergeError.notFound q)) ∧
      merge_pdfs_run (fun _ => none) [("missing.pdf" : String)] none = ⟨none, false⟩) :=
  ⟨(merge_pdfs_fails_fast (fun _ => none) ([] : List String) none).1 rfl,
    (merge_pdfs_fails_fast (fun _ => none) [("missing.pdf" : String)] none).2
      ("missing.pdf") (by decide) rfl⟩

/-- C8 witness: on a filesystem with no directories, the single string
a.pdf is not a directory and convert_merge_pdfs raises the
invalid-argument error, escaping as an exception. -/
theorem convert_merge_pdfs_single_nondir_witness :
    emptyFS.dirs ("a.pdf") = none ∧
      (convert_merge_pdfs emptyFS (.single ("a.pdf")) =
          Except.error (.invalidArg singleStringErrMsg) ∧
        ∀ b : Bool, convert_merge_pdfs emptyFS (.single ("a.pdf")) ≠ Except.ok b) :=
  ⟨rfl, convert_merge_pdfs_single_nondir emptyFS ("a.pdf") rfl⟩

/-- C10 witness: the unrecognized format name Foo upper-cases to FOO,
is mapped to the Letter size, and produces no unknown-page-size error. -/
theorem convert_2pps_unknown_format_witness :
    strUpper ("Foo") ≠ "A4" ∧
      (convertPageFormatSize ("Foo") = letterSize ∧
        convert_pdf_2_pages_per_sheet [] ("Foo") =
          create_2_pages_per_sheet [] (.dims letterSize.1 letterSize.2) 12 false ∧
        convert_pdf_2_pages_per_sheet [] ("Foo") ≠ Except.error unknownPageSizeMsg) :=
  ⟨by decide, convert_2pps_unknown_format ("Foo") [] (by decide)⟩

end GralTools
